import Mathlib

/-!
Verification of the evidence-collection core of the repository
(`behavior_framework/utils/evidence.py`, class `EvidenceManager`).

The Python values that flow through request/response bodies are modelled by
the inductive type `PyVal`; Python `json.loads` is modelled by an explicit
parameter `jl : String → Option PyVal` (returning `none` exactly when the
Python call would raise `json.JSONDecodeError` / `ValueError`).  Machine
state (`self.current_evidence`, which is either the empty dict `{}` set by
`__init__` or the full bundle dict set by `start_scenario`) is modelled by
an `Option Bundle` field.  Filesystem effects of `save_evidence` are
modelled by an explicit environment `Env` (whether the JSON write succeeds,
whether the python-docx capability is importable, whether the docx render
and save succeeds) together with a list of performed filesystem operations.
-/

/-- A Python runtime value, as relevant to `_serialize_body` and JSON
serialization: `None`, booleans, integers, text strings, lists, string-keyed
dicts, and a catch-all for any other object carrying its `str()` display
form.  (Floats and other objects fall under `pyother`.) -/
inductive PyVal where
  | pynone
  | pybool (b : Bool)
  | pyint (n : Int)
  | pystr (s : String)
  | pylist (items : List PyVal)
  | pydict (entries : List (String × PyVal))
  | pyother (displayStr : String)

/-- Python `str(v)` for the scalar values that can reach the final branch of
`_serialize_body` (dict, list and str are handled by earlier branches and
never reach it; for them this returns their text content or a placeholder). -/
def pyScalarStr : PyVal → String
  | .pynone => "None"
  | .pybool b => if b then "True" else "False"
  | .pyint n => toString n
  | .pystr s => s
  | .pylist _ => ""
  | .pydict _ => ""
  | .pyother r => r

/-- Embedding of `EvidenceManager._serialize_body` (evidence.py lines
328-353).  `jl` models `json.loads`: `some v` when the string parses as
JSON, `none` when parsing raises (the source catches `JSONDecodeError` and
`ValueError`).  The source returns a value for every input — every failure
path is caught — so the embedding is a plain total function. -/
def serialize_body (jl : String → Option PyVal) : PyVal → PyVal
  | .pynone => .pynone
  | .pydict d => .pydict d
  | .pylist l => .pylist l
  | .pystr s =>
    match jl s with
    | some v => v
    | none => .pystr s
  | .pybool b => .pystr (pyScalarStr (.pybool b))
  | .pyint n => .pystr (pyScalarStr (.pyint n))
  | .pyother r => .pystr (pyScalarStr (.pyother r))

/-- Reference definition of the Body Serializer, written from the words of
the specification: `None` maps to `None`; a mapping or ordered sequence is
passed through unchanged; a text string is parsed as JSON on success and
kept as the same plain text on failure; any other value maps to its
display-string representation. -/
def serialize_body_ref (jl : String → Option PyVal) (body : PyVal) : PyVal :=
  match body with
  | .pynone => .pynone
  | .pydict d => .pydict d
  | .pylist l => .pylist l
  | .pystr s => (jl s).getD (.pystr s)
  | other => .pystr (pyScalarStr other)

/-- C1: for every JSON-parse oracle and every body value, the source Body
Serializer `_serialize_body` coincides with the reference definition taken
from the specification: `None` passes through, mappings and ordered
sequences pass through unchanged, text strings are parsed as JSON when
possible and kept as plain text otherwise, and every other value degrades
to its display string.  Totality (the function raises for no input) holds
by construction: the embedding returns a `PyVal` for every argument and has
no error outcome, mirroring the source, which catches every parse failure. -/
theorem serialize_body_matches_ref (jl : String → Option PyVal) (body : PyVal) :
    serialize_body jl body = serialize_body_ref jl body := by
  cases body with
  | pystr s =>
    show (match jl s with
          | some v => v
          | none => PyVal.pystr s) = (jl s).getD (PyVal.pystr s)
    cases jl s <;> rfl
  | _ => rfl

/-! ### Filename sanitizer -/

/-- The characters replaced by `_sanitize_filename` (evidence.py line 366:
the string of invalid characters, in source order). -/
def invalid_chars : List Char := ['<', '>', ':', '"', '/', '\\', '|', '?', '*']

/-- One `str.replace(char, '_')` call: every occurrence of `c` becomes an
underscore. -/
def replaceAll (c : Char) (l : List Char) : List Char :=
  l.map fun ch => if ch = c then '_' else ch

/-- Python `str.strip(chars)`: remove from both ends every leading and
trailing character satisfying `p`. -/
def stripEnds (p : Char → Bool) (l : List Char) : List Char :=
  ((l.dropWhile p).reverse.dropWhile p).reverse

/-- The length limit of `_sanitize_filename` (evidence.py lines 373-375):
keep the first 100 characters when the name is longer than 100. -/
def truncate100 (l : List Char) : List Char :=
  if l.length > 100 then l.take 100 else l

/-- Embedding of `EvidenceManager._sanitize_filename` (evidence.py lines
355-377): replace each invalid character by an underscore (a loop of
`str.replace` calls in the order of `invalid_chars`), strip leading and
trailing spaces and dots (`strip(' .')`), and truncate to 100 characters
when longer. -/
def sanitize_filename (filename : String) : String :=
  String.mk (truncate100 (stripEnds (fun c => c = ' ' || c = '.')
    (invalid_chars.foldl (fun acc c => replaceAll c acc) filename.toList)))

/-- The Filename Sanitizer exactly as the claim words it: replace the
invalid characters, strip leading and trailing whitespace (any whitespace
character) and dots, truncate to at most 100 characters. -/
def sanitize_filename_claim (filename : String) : String :=
  String.mk ((stripEnds (fun c => c.isWhitespace || c = '.')
    (filename.toList.map fun ch =>
      if invalid_chars.contains ch then '_' else ch)).take 100)

/-- The Filename Sanitizer as amended: identical to the claim except that
only the literal space character (not every whitespace character) is
stripped from the ends, along with dots. -/
def sanitize_filename_amended (filename : String) : String :=
  String.mk ((stripEnds (fun c => c = ' ' || c = '.')
    (filename.toList.map fun ch =>
      if invalid_chars.contains ch then '_' else ch)).take 100)

theorem map_ext_fun {α β : Type} (f g : α → β) (h : ∀ a, f a = g a) :
    ∀ l : List α, l.map f = l.map g := by
  intro l
  induction l with
  | nil => rfl
  | cons a l ih => simp [List.map_cons, h a, ih]

theorem foldl_replaceAll (cs : List Char) :
    ∀ l : List Char,
      cs.foldl (fun acc c => replaceAll c acc) l
        = l.map (fun ch => if cs.contains ch then '_' else ch) := by
  induction cs with
  | nil =>
    intro l
    simp [List.foldl, replaceAll]
  | cons c cs ih =>
    intro l
    have step : cs.foldl (fun acc c => replaceAll c acc) (replaceAll c l)
        = (replaceAll c l).map (fun ch => if cs.contains ch then '_' else ch) := ih _
    rw [List.foldl_cons, step, replaceAll, List.map_map]
    apply map_ext_fun
    intro ch
    by_cases hc : ch = c
    · subst hc
      by_cases h_ : cs.contains '_' <;>
        simp [List.contains_cons, Function.comp, h_]
    · have hb : (ch == c) = false := beq_eq_false_iff_ne.mpr hc
      simp [List.contains_cons, Function.comp, hc, hb]

/-- C4 counterexample: the claim says leading and trailing whitespace is
stripped, but the source strips only the literal space character (and dots):
on the input consisting of a tab followed by a letter, the source keeps the
tab while the claim as stated removes it. -/
theorem sanitize_filename_whitespace_counterexample :
    sanitize_filename "\ta" ≠ sanitize_filename_claim "\ta" := by
  decide

theorem truncate100_eq_take (l : List Char) : truncate100 l = l.take 100 := by
  unfold truncate100
  by_cases h : l.length > 100
  · rw [if_pos h]
  · rw [if_neg h, List.take_of_length_le (by omega)]

theorem truncate100_length_le (l : List Char) : (truncate100 l).length ≤ 100 := by
  rw [truncate100_eq_take, List.length_take]
  omega

/-- C4 (amended): for every input string, `_sanitize_filename` replaces each
of the characters in the invalid set by an underscore, strips leading and
trailing space and dot characters (only the literal space, not every
whitespace character), truncates to at most 100 characters, and is
deterministic (it is a pure function of its argument); the result never
exceeds 100 characters. -/
theorem sanitize_filename_correct (s : String) :
    sanitize_filename s = sanitize_filename_amended s ∧
      (sanitize_filename s).length ≤ 100 := by
  constructor
  · unfold sanitize_filename sanitize_filename_amended
    rw [foldl_replaceAll, truncate100_eq_take]
  · show (truncate100 _).length ≤ 100
    exact truncate100_length_le _

/-! ### Evidence bundle and manager state -/

/-- A database result row: a string-keyed mapping of column values. -/
def Row : Type := List (String × PyVal)

/-- One entry of the `api_requests` list, as built by `add_api_request`
(evidence.py lines 88-101). -/
structure ApiEvent where
  timestamp : String
  method : String
  url : String
  headers : List (String × String)
  body : PyVal
  response_status : Option Int
  response_headers : List (String × String)
  response_body : PyVal

/-- One entry of the `database_queries` list, as built by
`add_database_query` (evidence.py lines 120-126). -/
structure DbEvent where
  timestamp : String
  query : String
  result : List Row
  row_count : Nat
  error : Option String

/-- One entry of the `ui_screenshots` list, as built by `add_ui_screenshot`
(evidence.py lines 140-145). -/
structure UiEvent where
  timestamp : String
  path : String
  description : String
  page_url : String

/-- The dict built by `start_scenario` (evidence.py lines 51-58) and held in
`self.current_evidence`. -/
structure Bundle where
  feature : String
  scenario : String
  timestamp : String
  api_requests : List ApiEvent
  database_queries : List DbEvent
  ui_screenshots : List UiEvent

/-- The `EvidenceManager` object state.  `current_evidence` is `none` for
the empty dict `{}` assigned by `__init__` (the only other value ever
assigned is the full bundle dict of `start_scenario`); subscripting the
empty dict raises `KeyError` in Python.  `screenshots_dir` is `none` while
the attribute is unset (`__init__` does not create it; `start_scenario`
does). -/
structure EvidenceManager where
  evidence_dir : String
  screenshots_dir : Option String
  current_evidence : Option Bundle

/-- Embedding of `EvidenceManager.__init__` (evidence.py lines 27-36): the
evidence directory is recorded (and created on disk, a side effect no claim
concerns) and `current_evidence` is the empty dict. -/
def EvidenceManager.mkManager (evidence_dir : String) : EvidenceManager :=
  { evidence_dir := evidence_dir
    screenshots_dir := none
    current_evidence := none }

/-- Embedding of `EvidenceManager.start_scenario` (evidence.py lines
38-64).  `ts` stands for the `datetime.now()` timestamp string captured at
call time.  The fresh bundle records the raw names; the temporary
screenshot directory path is built from the sanitized names (its on-disk
creation is a side effect no claim concerns). -/
def start_scenario (m : EvidenceManager) (feature_name scenario_name ts : String) :
    EvidenceManager :=
  { m with
    screenshots_dir := some (m.evidence_dir ++ "/temp_screenshots/"
      ++ sanitize_filename feature_name ++ "_" ++ sanitize_filename scenario_name
      ++ "_" ++ ts)
    current_evidence := some
      { feature := feature_name
        scenario := scenario_name
        timestamp := ts
        api_requests := []
        database_queries := []
        ui_screenshots := [] } }

/-- A Python exception as far as the claims need it. -/
inductive PyError where
  | keyError (key : String)

/-- The event record built by `add_api_request` before it is appended
(evidence.py lines 88-101): request headers default to the empty dict,
bodies pass through `_serialize_body`. -/
def mkApiEvent (jl : String → Option PyVal) (ts method url : String)
    (headers : Option (List (String × String))) (body : PyVal)
    (response_status : Option Int)
    (response_headers : Option (List (String × String)))
    (response_body : PyVal) : ApiEvent :=
  { timestamp := ts
    method := method
    url := url
    headers := headers.getD []
    body := serialize_body jl body
    response_status := response_status
    response_headers := response_headers.getD []
    response_body := serialize_body jl response_body }

/-- Embedding of `EvidenceManager.add_api_request` (evidence.py lines
66-104): build the event record, then append it to
`self.current_evidence["api_requests"]` — a subscript that raises
`KeyError` when `current_evidence` is still the empty dict of
`__init__`. -/
def add_api_request (jl : String → Option PyVal) (ts method url : String)
    (headers : Option (List (String × String))) (body : PyVal)
    (response_status : Option Int)
    (response_headers : Option (List (String × String)))
    (response_body : PyVal) (m : EvidenceManager) :
    Except PyError EvidenceManager :=
  let ev := mkApiEvent jl ts method url headers body
    response_status response_headers response_body
  match m.current_evidence with
  | none => .error (.keyError "api_requests")
  | some b =>
    let b2 := { b with api_requests := b.api_requests ++ [ev] }
    .ok { m with current_evidence := some b2 }

/-- The event record built by `add_database_query` before it is appended
(evidence.py lines 120-126): the stored result is `result or []`, and
`row_count` is `len(result) if result else 0` (0 when the result is absent
or empty). -/
def mkDbEvent (ts query : String) (result : Option (List Row))
    (error : Option String) : DbEvent :=
  { timestamp := ts
    query := query
    result := result.getD []
    row_count :=
      match result with
      | some rows => if rows.isEmpty then 0 else rows.length
      | none => 0
    error := error }

/-- Embedding of `EvidenceManager.add_database_query` (evidence.py lines
106-129). -/
def add_database_query (ts query : String) (result : Option (List Row))
    (error : Option String) (m : EvidenceManager) :
    Except PyError EvidenceManager :=
  let ev := mkDbEvent ts query result error
  match m.current_evidence with
  | none => .error (.keyError "database_queries")
  | some b =>
    let b2 := { b with database_queries := b.database_queries ++ [ev] }
    .ok { m with current_evidence := some b2 }

/-- The record built by `add_ui_screenshot` (evidence.py lines 140-145). -/
def mkUiEvent (ts screenshot_path description page_url : String) : UiEvent :=
  { timestamp := ts
    path := screenshot_path
    description := description
    page_url := page_url }

/-- Embedding of `EvidenceManager.add_ui_screenshot` (evidence.py lines
131-148). -/
def add_ui_screenshot (ts screenshot_path description page_url : String)
    (m : EvidenceManager) : Except PyError EvidenceManager :=
  let ev := mkUiEvent ts screenshot_path description page_url
  match m.current_evidence with
  | none => .error (.keyError "ui_screenshots")
  | some b =>
    let b2 := { b with ui_screenshots := b.ui_screenshots ++ [ev] }
    .ok { m with current_evidence := some b2 }

/-! ### JSON content of a saved bundle -/

/-- JSON form of an Option Int status code (`None` or a number). -/
def optIntPyVal : Option Int → PyVal
  | none => .pynone
  | some n => .pyint n

/-- JSON form of an Option String (`None` or text). -/
def optStrPyVal : Option String → PyVal
  | none => .pynone
  | some s => .pystr s

/-- JSON form of a string-to-string mapping (headers dict). -/
def headersPyVal (hs : List (String × String)) : PyVal :=
  .pydict (hs.map fun p => (p.1, PyVal.pystr p.2))

/-- JSON form of one `api_requests` entry (the dict of evidence.py lines
88-101). -/
def apiEventPyVal (e : ApiEvent) : PyVal :=
  .pydict [
    ("timestamp", .pystr e.timestamp),
    ("request", .pydict [
      ("method", .pystr e.method),
      ("url", .pystr e.url),
      ("headers", headersPyVal e.headers),
      ("body", e.body)]),
    ("response", .pydict [
      ("status_code", optIntPyVal e.response_status),
      ("headers", headersPyVal e.response_headers),
      ("body", e.response_body)])]

/-- JSON form of one result row. -/
def rowPyVal (r : Row) : PyVal := .pydict r

/-- JSON form of one `database_queries` entry (the dict of evidence.py
lines 120-126). -/
def dbEventPyVal (e : DbEvent) : PyVal :=
  .pydict [
    ("timestamp", .pystr e.timestamp),
    ("query", .pystr e.query),
    ("result", .pylist (e.result.map rowPyVal)),
    ("row_count", .pyint e.row_count),
    ("error", optStrPyVal e.error)]

/-- JSON form of one `ui_screenshots` entry (the dict of evidence.py lines
140-145). -/
def uiEventPyVal (e : UiEvent) : PyVal :=
  .pydict [
    ("timestamp", .pystr e.timestamp),
    ("path", .pystr e.path),
    ("description", .pystr e.description),
    ("page_url", .pystr e.page_url)]

/-- The structure `json.dump` writes for a bundle (the
`self.current_evidence` dict of evidence.py lines 51-58).  Since every
value in it is JSON-safe, `json.loads` of the written file returns exactly
this structure: the embedding identifies the written file with the parsed
round-trip result. -/
def bundlePyVal (b : Bundle) : PyVal :=
  .pydict [
    ("feature", .pystr b.feature),
    ("scenario", .pystr b.scenario),
    ("timestamp", .pystr b.timestamp),
    ("api_requests", .pylist (b.api_requests.map apiEventPyVal)),
    ("database_queries", .pylist (b.database_queries.map dbEventPyVal)),
    ("ui_screenshots", .pylist (b.ui_screenshots.map uiEventPyVal))]

/-- Association-list lookup on dict entries (models Python `d[k]` /
`json` object field access on a parsed object). -/
def dictLookup (k : String) : List (String × PyVal) → Option PyVal
  | [] => none
  | (k2, v) :: rest => if k2 = k then some v else dictLookup k rest

/-- Field access on a parsed JSON value: `some` of the field value when the
value is an object that has the key. -/
def pyLookup (k : String) : PyVal → Option PyVal
  | .pydict entries => dictLookup k entries
  | _ => none

/-! ### Saving -/

/-- The parts of the runtime environment that decide how `save_evidence`
ends: whether the feature-directory creation succeeds
(`feature_dir.mkdir(parents=True, exist_ok=True)` at evidence.py line 170,
which sits outside every try/except and can raise a `PermissionError`, or
a `FileExistsError` when a plain file occupies the feature-dir path since
`exist_ok` only tolerates an existing directory), whether the JSON file
write succeeds (lines 195-203), whether python-docx was importable
(`DOCX_AVAILABLE`, lines 14-21), and whether building and saving the Word
document succeeds (lines 222-326). -/
structure Env where
  mkdir_ok : Bool
  json_write_ok : Bool
  docx_available : Bool
  docx_save_ok : Bool

/-- A filesystem operation performed by `save_evidence`. -/
inductive FsOp where
  | mkdir (path : String)
  | writeFile (path : String)
  | removeTree (path : String)

/-- How one `save_evidence` call ended.  `savedJson` carries the structure
written to (and parsed back from) the JSON file.  `mkdirRaised` is not a
return at all: it models the OSError from the feature-directory creation
at evidence.py line 170 propagating out of `save_evidence`, the one
statement of the method outside every try/except. -/
inductive SaveOutcome where
  | noBundle
  | savedJson (path : String) (content : PyVal)
  | jsonWriteFailed
  | docxUnavailable
  | savedDocx (path : String)
  | docxRenderFailed
  | mkdirRaised

/-- The value `save_evidence` returns to its caller for a given outcome:
the path written on success, `None` otherwise.  Meaningful only when
`raisesToCaller` is false: a `mkdirRaised` outcome reaches the caller as
an exception, not as a value. -/
def returnValue : SaveOutcome → Option String
  | .savedJson p _ => some p
  | .savedDocx p => some p
  | _ => none

/-- True when the outcome is an exception propagating out of
`save_evidence` rather than a returned value: only the feature-directory
creation at evidence.py line 170 can do this. -/
def raisesToCaller : SaveOutcome → Bool
  | .mkdirRaised => true
  | _ => false

/-- Embedding of `EvidenceManager._save_word_document` (evidence.py lines
205-326): bail out with a logged error when python-docx is unavailable;
otherwise build the document and save it, returning the path, and
best-effort delete the temporary screenshots directory; any exception is
caught, logged, and turned into a `None` return. -/
def save_word_document (env : Env) (m : EvidenceManager)
    (feature_dir safe_feature safe_scenario ts : String) :
    SaveOutcome × List FsOp :=
  if !env.docx_available then
    (.docxUnavailable, [.mkdir feature_dir])
  else if env.docx_save_ok then
    let evidence_path := feature_dir ++ "/" ++ safe_feature ++ "_"
      ++ safe_scenario ++ "_" ++ ts ++ ".docx"
    let cleanup :=
      match m.screenshots_dir with
      | some d => [FsOp.removeTree d]
      | none => []
    (.savedDocx evidence_path,
      [.mkdir feature_dir, .writeFile evidence_path] ++ cleanup)
  else
    (.docxRenderFailed, [.mkdir feature_dir])

/-- Embedding of `EvidenceManager.save_evidence` (evidence.py lines
150-203).  Guard first: an empty `current_evidence` dict or a falsy
scenario name returns `None` with no filesystem activity.  Then the
feature directory is created (line 170) — this call is outside every
try/except, so when it raises the exception propagates out of
`save_evidence` (outcome `mkdirRaised`).  Otherwise the effective format
is resolved (`"auto"` becomes `"docx"` exactly when UI screenshots exist,
else `"json"`), and the bundle is written as a Word document when the
resolved format is `"docx"` and screenshots exist, otherwise as a JSON
file; a JSON write failure is caught and becomes a `None` return.  The
method never assigns `self.current_evidence`, so the manager state is
unchanged and the embedding returns only the outcome and the filesystem
operations. -/
def save_evidence (env : Env) (m : EvidenceManager) (output_format : String) :
    SaveOutcome × List FsOp :=
  match m.current_evidence with
  | none => (.noBundle, [])
  | some b =>
    if b.scenario = "" then (.noBundle, [])
    else
      let safe_feature := sanitize_filename b.feature
      let safe_scenario := sanitize_filename b.scenario
      let feature_dir := m.evidence_dir ++ "/" ++ safe_feature
      if !env.mkdir_ok then (.mkdirRaised, [])
      else
      let has_ui := decide (0 < b.ui_screenshots.length)
      let has_api := decide (0 < b.api_requests.length)
      let has_db := decide (0 < b.database_queries.length)
      let fmt :=
        if output_format = "auto" then
          if has_ui then "docx"
          else if has_api || has_db then "json"
          else "json"
        else output_format
      if fmt = "docx" && has_ui then
        save_word_document env m feature_dir safe_feature safe_scenario b.timestamp
      else
        let evidence_path := feature_dir ++ "/" ++ safe_feature ++ "_"
          ++ safe_scenario ++ "_" ++ b.timestamp ++ ".json"
        if env.json_write_ok then
          (.savedJson evidence_path (bundlePyVal b),
            [.mkdir feature_dir, .writeFile evidence_path])
        else
          (.jsonWriteFailed, [.mkdir feature_dir])

/-- True exactly when the outcome came out of `_save_word_document`
(evidence.py line 189): the rich-document renderer was invoked, whether it
saved, found python-docx missing, or failed while rendering. -/
def invokesWordRenderer : SaveOutcome → Bool
  | .savedDocx _ => true
  | .docxUnavailable => true
  | .docxRenderFailed => true
  | _ => false

/-- C2: with `output_format = "auto"`, `save_evidence` hands the bundle to
the rich-document (docx) renderer exactly when the bundle has at least one
UI screenshot; with zero screenshots it writes the bundle as a JSON file
(at the JSON output path, when the write succeeds) whether or not API/DB
events exist — never a rich document. -/
theorem save_auto_docx_iff_screenshots (env : Env) (m : EvidenceManager)
    (b : Bundle) (hb : m.current_evidence = some b) (hs : b.scenario ≠ "")
    (hm : env.mkdir_ok = true) :
    (invokesWordRenderer (save_evidence env m "auto").1 = true
        ↔ b.ui_screenshots ≠ []) ∧
    (b.ui_screenshots = [] → env.json_write_ok = true →
      (save_evidence env m "auto").1
        = .savedJson (m.evidence_dir ++ "/" ++ sanitize_filename b.feature
            ++ "/" ++ sanitize_filename b.feature ++ "_"
            ++ sanitize_filename b.scenario ++ "_" ++ b.timestamp ++ ".json")
            (bundlePyVal b)) := by
  unfold save_evidence
  rw [hb]
  by_cases hui : b.ui_screenshots = []
  · simp only [hs, if_neg, hui]
    constructor
    · by_cases hw : env.json_write_ok <;>
        simp [hw, hm, invokesWordRenderer]
    · intro _ hw
      simp [hw, hm]
  · have hlen : 0 < b.ui_screenshots.length := List.length_pos.mpr hui
    simp only [hs, if_neg, hlen]
    constructor
    · unfold save_word_document
      by_cases ha : env.docx_available <;> by_cases hk : env.docx_save_ok <;>
        simp [ha, hk, hm, invokesWordRenderer, hui]
    · intro h
      exact absurd h hui

/-- C3: with the explicit format `"docx"` but zero UI screenshots,
`save_evidence` does not invoke the rich-document renderer and instead
falls back to writing the bundle as a JSON file at the JSON output path
(returning that path when the write succeeds). -/
theorem save_docx_without_screenshots_falls_back_json (env : Env)
    (m : EvidenceManager) (b : Bundle) (hb : m.current_evidence = some b)
    (hs : b.scenario ≠ "") (hui : b.ui_screenshots = [])
    (hm : env.mkdir_ok = true) :
    invokesWordRenderer (save_evidence env m "docx").1 = false ∧
    (env.json_write_ok = true →
      (save_evidence env m "docx").1
        = .savedJson (m.evidence_dir ++ "/" ++ sanitize_filename b.feature
            ++ "/" ++ sanitize_filename b.feature ++ "_"
            ++ sanitize_filename b.scenario ++ "_" ++ b.timestamp ++ ".json")
            (bundlePyVal b)) := by
  unfold save_evidence
  rw [hb]
  constructor
  · by_cases hw : env.json_write_ok <;>
      simp [hs, hui, hw, hm, invokesWordRenderer]
  · intro hw
    simp [hs, hui, hw, hm]

/-- C5: when `start_scenario` has never been called (`current_evidence` is
still the empty dict of `__init__`) or the bundle's scenario name is unset
(the empty, falsy string), `save_evidence` returns `None` for every
requested output format and performs no filesystem operation at all. -/
theorem save_without_scenario_returns_none (env : Env) (m : EvidenceManager)
    (fmt : String)
    (h : m.current_evidence = none
        ∨ ∃ b, m.current_evidence = some b ∧ b.scenario = "") :
    returnValue (save_evidence env m fmt).1 = none ∧
    (save_evidence env m fmt).2 = [] := by
  unfold save_evidence
  rcases h with h | ⟨b, hb, hs⟩
  · rw [h]
    exact ⟨rfl, rfl⟩
  · rw [hb]
    simp [hs, returnValue]

/-- C6 (amended): `save_evidence` converts every saving failure after the
feature-directory creation into a `None` return instead of raising:
whatever the manager state and the requested format, when the directory
creation at evidence.py line 170 succeeds but the JSON write raises (disk
full, permission denied) and the rich-document path cannot succeed either
(python-docx missing, or the renderer raising), the call returns `None`
and propagates nothing.  The directory creation itself, however, is
outside every try/except: when it fails, the call either took the
no-bundle guard exit or propagates the exception to the caller. -/
theorem save_failures_return_none (env : Env) (m : EvidenceManager)
    (fmt : String) (hjson : env.json_write_ok = false)
    (hdocx : env.docx_available = false ∨ env.docx_save_ok = false) :
    (env.mkdir_ok = true →
      returnValue (save_evidence env m fmt).1 = none ∧
      raisesToCaller (save_evidence env m fmt).1 = false) ∧
    (env.mkdir_ok = false →
      (save_evidence env m fmt).1 = .noBundle ∨
        (save_evidence env m fmt).1 = .mkdirRaised) := by
  constructor
  · intro hm
    unfold save_evidence save_word_document
    cases hce : m.current_evidence with
    | none => exact ⟨rfl, rfl⟩
    | some b =>
      by_cases hs : b.scenario = ""
      · simp [hs, returnValue, raisesToCaller]
      · simp only [hs, ite_false, hm]
        rcases hdocx with hd | hk <;> split_ifs <;>
          simp_all [returnValue, raisesToCaller]
  · intro hm
    unfold save_evidence
    cases hce : m.current_evidence with
    | none => exact Or.inl rfl
    | some b =>
      by_cases hs : b.scenario = ""
      · simp [hs]
      · simp [hs, hm]

theorem mkDbEvent_row_count (ts q : String) (result : Option (List Row))
    (err : Option String) :
    (mkDbEvent ts q result err).row_count = (result.getD []).length := by
  cases result with
  | none => rfl
  | some rows => cases rows <;> rfl

/-- C7: every `add_database_query` call on an active bundle appends exactly
one DbEvent whose `row_count` is the length of the given result sequence
when a result is given and 0 when it is absent (`result.getD []` has length
`rows.length` in the first case and 0 in the second), and whose `error`
field carries exactly the error argument; in particular an event created
with an error message and no result has `row_count = 0` and that message in
its error field. -/
theorem add_database_query_row_count (ts q : String)
    (result : Option (List Row)) (err : Option String) (m : EvidenceManager)
    (b : Bundle) (hb : m.current_evidence = some b) :
    ∃ m2, add_database_query ts q result err m = .ok m2 ∧
      ∃ b2, m2.current_evidence = some b2 ∧
        b2.database_queries = b.database_queries ++ [mkDbEvent ts q result err] ∧
        (mkDbEvent ts q result err).row_count = (result.getD []).length ∧
        (mkDbEvent ts q result err).error = err := by
  have key : add_database_query ts q result err m
      = .ok { m with current_evidence := some ({ b with database_queries :=
          b.database_queries ++ [mkDbEvent ts q result err] }) } := by
    unfold add_database_query
    rw [hb]
  refine ⟨_, key, _, rfl, rfl, ?_, rfl⟩
  exact mkDbEvent_row_count ts q result err

/-- C8 trace machinery: one recording call made between `start_scenario`
and `save_evidence`. -/
inductive Op where
  | addApi (ts method url : String) (headers : Option (List (String × String)))
      (body : PyVal) (response_status : Option Int)
      (response_headers : Option (List (String × String))) (response_body : PyVal)
  | addDb (ts query : String) (result : Option (List Row)) (error : Option String)
  | addUi (ts path description page_url : String)

/-- Run one recording call against the manager state. -/
def applyOp (jl : String → Option PyVal) (m : EvidenceManager) :
    Op → Except PyError EvidenceManager
  | .addApi ts method url headers body rs rh rb =>
    add_api_request jl ts method url headers body rs rh rb m
  | .addDb ts q r e => add_database_query ts q r e m
  | .addUi ts p d u => add_ui_screenshot ts p d u m

/-- Run a sequence of recording calls left to right, stopping at the first
raised exception. -/
def runOps (jl : String → Option PyVal) (m : EvidenceManager) :
    List Op → Except PyError EvidenceManager
  | [] => .ok m
  | op :: rest =>
    match applyOp jl m op with
    | .error e => .error e
    | .ok m2 => runOps jl m2 rest

/-- The ApiEvent an `addApi` call records. -/
def opApiEvent (jl : String → Option PyVal) : Op → Option ApiEvent
  | .addApi ts method url headers body rs rh rb =>
    some (mkApiEvent jl ts method url headers body rs rh rb)
  | _ => none

/-- The DbEvent an `addDb` call records. -/
def opDbEvent : Op → Option DbEvent
  | .addDb ts q r e => some (mkDbEvent ts q r e)
  | _ => none

/-- The UiEvent an `addUi` call records. -/
def opUiEvent : Op → Option UiEvent
  | .addUi ts p d u => some (mkUiEvent ts p d u)
  | _ => none

theorem runOps_ok (jl : String → Option PyVal) (ops : List Op) :
    ∀ (m : EvidenceManager) (b : Bundle), m.current_evidence = some b →
      runOps jl m ops = .ok
        { evidence_dir := m.evidence_dir
          screenshots_dir := m.screenshots_dir
          current_evidence := some
            { feature := b.feature
              scenario := b.scenario
              timestamp := b.timestamp
              api_requests := b.api_requests ++ ops.filterMap (opApiEvent jl)
              database_queries := b.database_queries ++ ops.filterMap opDbEvent
              ui_screenshots := b.ui_screenshots ++ ops.filterMap opUiEvent } } := by
  induction ops with
  | nil =>
    intro m b hb
    obtain ⟨d, sd, ce⟩ := m
    cases hb
    simp [runOps, List.filterMap_nil, List.append_nil]
  | cons op rest ih =>
    intro m b hb
    cases op with
    | addApi ts method url headers body rs rh rb =>
      have h1 : applyOp jl m (Op.addApi ts method url headers body rs rh rb)
          = .ok { m with current_evidence := some ({ b with api_requests :=
              b.api_requests
                ++ [mkApiEvent jl ts method url headers body rs rh rb] }) } := by
        show add_api_request jl ts method url headers body rs rh rb m = _
        unfold add_api_request
        rw [hb]
      simp only [runOps, h1]
      rw [ih _ _ rfl]
      simp [List.filterMap_cons, opApiEvent, opDbEvent, opUiEvent,
        List.append_assoc]
    | addDb ts q r e =>
      have h1 : applyOp jl m (Op.addDb ts q r e)
          = .ok { m with current_evidence := some ({ b with database_queries :=
              b.database_queries ++ [mkDbEvent ts q r e] }) } := by
        show add_database_query ts q r e m = _
        unfold add_database_query
        rw [hb]
      simp only [runOps, h1]
      rw [ih _ _ rfl]
      simp [List.filterMap_cons, opApiEvent, opDbEvent, opUiEvent,
        List.append_assoc]
    | addUi ts p d u =>
      have h1 : applyOp jl m (Op.addUi ts p d u)
          = .ok { m with current_evidence := some ({ b with ui_screenshots :=
              b.ui_screenshots ++ [mkUiEvent ts p d u] }) } := by
        show add_ui_screenshot ts p d u m = _
        unfold add_ui_screenshot
        rw [hb]
      simp only [runOps, h1]
      rw [ih _ _ rfl]
      simp [List.filterMap_cons, opApiEvent, opDbEvent, opUiEvent,
        List.append_assoc]

theorem save_word_document_fst_ne_savedJson (env : Env) (m : EvidenceManager)
    (fd sf ss ts : String) (p : String) (c : PyVal) :
    (save_word_document env m fd sf ss ts).1 ≠ .savedJson p c := by
  unfold save_word_document
  split_ifs <;> simp

theorem savedJson_content (env : Env) (m : EvidenceManager) (fmt p : String)
    (c : PyVal) (h : (save_evidence env m fmt).1 = .savedJson p c) :
    ∃ b, m.current_evidence = some b ∧ c = bundlePyVal b := by
  unfold save_evidence save_word_document at h
  cases hm : m.current_evidence with
  | none =>
    rw [hm] at h
    exact absurd h (by simp)
  | some b =>
    rw [hm] at h
    refine ⟨b, rfl, ?_⟩
    by_cases hs : b.scenario = ""
    · simp [hs] at h
    · simp only [hs, ite_false] at h
      split_ifs at h <;> injection h with hp hc <;> exact hc.symm

/-- True for an `add_api_request` call. -/
def Op.isApi : Op → Bool
  | .addApi .. => true
  | _ => false

/-- True for an `add_database_query` call. -/
def Op.isDb : Op → Bool
  | .addDb .. => true
  | _ => false

/-- True for an `add_ui_screenshot` call. -/
def Op.isUi : Op → Bool
  | .addUi .. => true
  | _ => false

theorem filterMap_opApi_length (jl : String → Option PyVal) :
    ∀ ops : List Op,
      (ops.filterMap (opApiEvent jl)).length = (ops.filter Op.isApi).length := by
  intro ops
  induction ops with
  | nil => rfl
  | cons op rest ih =>
    cases op <;>
      simp [opApiEvent, Op.isApi, List.filterMap_cons, List.filter_cons, ih]

theorem filterMap_opDb_length :
    ∀ ops : List Op,
      (ops.filterMap opDbEvent).length = (ops.filter Op.isDb).length := by
  intro ops
  induction ops with
  | nil => rfl
  | cons op rest ih =>
    cases op <;>
      simp [opDbEvent, Op.isDb, List.filterMap_cons, List.filter_cons, ih]

theorem filterMap_opUi_length :
    ∀ ops : List Op,
      (ops.filterMap opUiEvent).length = (ops.filter Op.isUi).length := by
  intro ops
  induction ops with
  | nil => rfl
  | cons op rest ih =>
    cases op <;>
      simp [opUiEvent, Op.isUi, List.filterMap_cons, List.filter_cons, ih]

/-- C8 round-trip: take any scenario started with `start_scenario`, any
sequence of recording calls after it, and any `save_evidence` call that
wrote a JSON file.  Parsing the written file back (identified with the
structure handed to `json.dump`, which `json.loads` inverts on this
JSON-safe value) yields an object whose `feature` and `scenario` fields
are exactly the names given to `start_scenario`, and whose `api_requests`,
`database_queries` and `ui_screenshots` arrays list exactly the events of
the corresponding `add_*` calls, one entry per call, in call order; in
particular each array's length is the number of calls of that kind. -/
theorem saved_json_roundtrip (jl : String → Option PyVal) (env : Env)
    (m0 : EvidenceManager) (f s ts : String) (ops : List Op) (fmt p : String)
    (c : PyVal) (m2 : EvidenceManager)
    (hrun : runOps jl (start_scenario m0 f s ts) ops = .ok m2)
    (hsave : (save_evidence env m2 fmt).1 = .savedJson p c) :
    pyLookup "feature" c = some (.pystr f) ∧
    pyLookup "scenario" c = some (.pystr s) ∧
    pyLookup "api_requests" c
      = some (.pylist ((ops.filterMap (opApiEvent jl)).map apiEventPyVal)) ∧
    pyLookup "database_queries" c
      = some (.pylist ((ops.filterMap opDbEvent).map dbEventPyVal)) ∧
    pyLookup "ui_screenshots" c
      = some (.pylist ((ops.filterMap opUiEvent).map uiEventPyVal)) ∧
    (ops.filterMap (opApiEvent jl)).length = (ops.filter Op.isApi).length ∧
    (ops.filterMap opDbEvent).length = (ops.filter Op.isDb).length ∧
    (ops.filterMap opUiEvent).length = (ops.filter Op.isUi).length := by
  have hok := runOps_ok jl ops (start_scenario m0 f s ts)
    { feature := f
      scenario := s
      timestamp := ts
      api_requests := []
      database_queries := []
      ui_screenshots := [] } rfl
  rw [hok] at hrun
  injection hrun with hm2
  obtain ⟨b, hb, hc⟩ := savedJson_content env m2 fmt p c hsave
  rw [← hm2] at hb
  injection hb with hb2
  subst hc
  rw [← hb2]
  refine ⟨?_, ?_, ?_, ?_, ?_,
    filterMap_opApi_length jl ops, filterMap_opDb_length ops,
    filterMap_opUi_length ops⟩ <;>
    simp [bundlePyVal, pyLookup, dictLookup, List.nil_append]

/-- C10: on a fresh `EvidenceManager` on which `start_scenario` has never
been called, `current_evidence` is still the empty dict, so each of
`add_api_request`, `add_database_query` and `add_ui_screenshot` raises a
`KeyError` for its event-list key instead of recording the event or
returning silently. -/
theorem add_before_start_raises_keyerror (dir : String)
    (jl : String → Option PyVal) (ts method url : String)
    (headers : Option (List (String × String))) (body : PyVal)
    (rs : Option Int) (rh : Option (List (String × String))) (rb : PyVal)
    (q : String) (result : Option (List Row)) (err : Option String)
    (pth desc purl : String) :
    add_api_request jl ts method url headers body rs rh rb
        (EvidenceManager.mkManager dir) = .error (.keyError "api_requests") ∧
    add_database_query ts q result err (EvidenceManager.mkManager dir)
      = .error (.keyError "database_queries") ∧
    add_ui_screenshot ts pth desc purl (EvidenceManager.mkManager dir)
      = .error (.keyError "ui_screenshots") :=
  ⟨rfl, rfl, rfl⟩

/-! ### Concrete instances -/

/-- An environment in which every capability succeeds. -/
def envAllOk : Env :=
  { mkdir_ok := true, json_write_ok := true, docx_available := true,
    docx_save_ok := true }

/-- An environment in which the feature-directory creation succeeds but
every saving capability fails. -/
def envAllFail : Env :=
  { mkdir_ok := true, json_write_ok := false, docx_available := false,
    docx_save_ok := false }

/-- An environment in which the feature-directory creation at evidence.py
line 170 raises (permission denied, or a plain file occupying the
feature-dir path) while everything else would succeed. -/
def envMkdirFail : Env :=
  { mkdir_ok := false, json_write_ok := true, docx_available := true,
    docx_save_ok := true }

/-- A JSON-parse oracle under which no string parses. -/
def jlNone : String → Option PyVal := fun _ => none

/-- Manager state right after
`start_scenario("Login", "ValidLogin")` at timestamp 20240101_120000. -/
def demoManager : EvidenceManager :=
  start_scenario (EvidenceManager.mkManager "evidence")
    "Login" "ValidLogin" "20240101_120000"

/-- Number of recorded API events in the current bundle. -/
def apiCount (m : EvidenceManager) : Nat :=
  match m.current_evidence with
  | some b => b.api_requests.length
  | none => 0

/-- C9 counterexample: the claim says that after a successful
`save_evidence` the bundle is immutable or discarded, so that no subsequent
`add_*` call extends the saved bundle's event sequences.  In the source,
`save_evidence` never reassigns or clears `self.current_evidence`: on the
concrete manager just after `start_scenario`, `save_evidence` succeeds
(returns the JSON path), the saved bundle has zero API events, and a
subsequent `add_api_request` call succeeds and extends that same bundle's
`api_requests` from zero to one entry. -/
theorem bundle_not_immutable_after_save :
    returnValue (save_evidence envAllOk demoManager "json").1
        = some "evidence/Login/Login_ValidLogin_20240101_120000.json" ∧
    apiCount demoManager = 0 ∧
    (add_api_request jlNone "t" "GET" "http://x" none .pynone none none
        .pynone demoManager).map apiCount = .ok 1 :=
  ⟨rfl, rfl, rfl⟩

/-- C9 (amended): a bundle is created by `start_scenario` and extended by
the `add_*` calls, but a successful `save_evidence` neither discards nor
freezes it: `save_evidence` leaves the manager state untouched (the source
method never assigns `self.current_evidence`, which is why the embedding
returns no new state), so on any active bundle whose JSON save succeeds, a
subsequent `add_api_request` still succeeds and extends the already-saved
bundle's `api_requests` by exactly the new event; only the next
`start_scenario` replaces the bundle. -/
theorem bundle_extends_after_save (env : Env) (m : EvidenceManager)
    (b : Bundle) (jl : String → Option PyVal) (ts method url : String)
    (body rb : PyVal) (hb : m.current_evidence = some b)
    (hs : b.scenario ≠ "") (hw : env.json_write_ok = true)
    (hm : env.mkdir_ok = true) :
    (∃ pth, returnValue (save_evidence env m "json").1 = some pth) ∧
    ∃ m2, add_api_request jl ts method url none body none none rb m = .ok m2 ∧
      ∃ b2, m2.current_evidence = some b2 ∧
        b2.api_requests
          = b.api_requests
            ++ [mkApiEvent jl ts method url none body none none rb] := by
  constructor
  · have hsj : (save_evidence env m "json").1
        = .savedJson (m.evidence_dir ++ "/" ++ sanitize_filename b.feature
            ++ "/" ++ sanitize_filename b.feature ++ "_"
            ++ sanitize_filename b.scenario ++ "_" ++ b.timestamp ++ ".json")
            (bundlePyVal b) := by
      unfold save_evidence
      rw [hb]
      simp [hs, hw, hm]
    exact ⟨m.evidence_dir ++ "/" ++ sanitize_filename b.feature ++ "/"
      ++ sanitize_filename b.feature ++ "_" ++ sanitize_filename b.scenario
      ++ "_" ++ b.timestamp ++ ".json", by rw [hsj]; rfl⟩
  · have key : add_api_request jl ts method url none body none none rb m
        = .ok { m with current_evidence := some ({ b with api_requests :=
            b.api_requests
              ++ [mkApiEvent jl ts method url none body none none rb] }) } := by
      unfold add_api_request
      rw [hb]
    exact ⟨_, key, _, rfl, rfl⟩

/-! ### Concrete witnesses -/

/-- A bundle holding exactly one UI screenshot. -/
def demoUiBundle : Bundle :=
  { feature := "F"
    scenario := "S"
    timestamp := "T"
    api_requests := []
    database_queries := []
    ui_screenshots := [mkUiEvent "t1" "shot.png" "login page" "http://x"] }

/-- A manager whose active bundle is `demoUiBundle`. -/
def demoUiManager : EvidenceManager :=
  { evidence_dir := "evidence"
    screenshots_dir := none
    current_evidence := some demoUiBundle }

/-- An active bundle with no events at all. -/
def demoJsonBundle : Bundle :=
  { feature := "F"
    scenario := "S"
    timestamp := "T"
    api_requests := []
    database_queries := []
    ui_screenshots := [] }

/-- A manager whose active bundle is `demoJsonBundle`. -/
def demoJsonManager : EvidenceManager :=
  { evidence_dir := "evidence"
    screenshots_dir := none
    current_evidence := some demoJsonBundle }

/-- C6 counterexample: the claim says `save_evidence` never raises — every
failure during saving is caught and turned into a `None` return.  But the
feature-directory creation at evidence.py line 170 is outside every
try/except: on a concrete active bundle, in an environment where that
`mkdir` call fails (permission denied on the evidence root, or a plain
file occupying the feature-dir path), `save_evidence` propagates the
exception to the caller instead of returning `None`. -/
theorem save_evidence_raises_on_mkdir_failure :
    (save_evidence envMkdirFail demoJsonManager "json").1
        = SaveOutcome.mkdirRaised ∧
    raisesToCaller SaveOutcome.mkdirRaised = true :=
  ⟨rfl, rfl⟩

theorem save_auto_docx_iff_screenshots_witness :
    (demoUiManager.current_evidence = some demoUiBundle ∧
      envAllOk.mkdir_ok = true) ∧
    ((invokesWordRenderer (save_evidence envAllOk demoUiManager "auto").1 = true
        ↔ demoUiBundle.ui_screenshots ≠ []) ∧
      (demoUiBundle.ui_screenshots = [] → envAllOk.json_write_ok = true →
        (save_evidence envAllOk demoUiManager "auto").1
          = .savedJson (demoUiManager.evidence_dir ++ "/"
              ++ sanitize_filename demoUiBundle.feature ++ "/"
              ++ sanitize_filename demoUiBundle.feature ++ "_"
              ++ sanitize_filename demoUiBundle.scenario ++ "_"
              ++ demoUiBundle.timestamp ++ ".json")
              (bundlePyVal demoUiBundle))) :=
  ⟨⟨rfl, rfl⟩, save_auto_docx_iff_screenshots envAllOk demoUiManager
    demoUiBundle rfl (by decide) rfl⟩

theorem save_docx_without_screenshots_falls_back_json_witness :
    (demoJsonManager.current_evidence = some demoJsonBundle ∧
      demoJsonBundle.ui_screenshots = [] ∧ envAllOk.mkdir_ok = true) ∧
    (invokesWordRenderer (save_evidence envAllOk demoJsonManager "docx").1
        = false ∧
      (envAllOk.json_write_ok = true →
        (save_evidence envAllOk demoJsonManager "docx").1
          = .savedJson (demoJsonManager.evidence_dir ++ "/"
              ++ sanitize_filename demoJsonBundle.feature ++ "/"
              ++ sanitize_filename demoJsonBundle.feature ++ "_"
              ++ sanitize_filename demoJsonBundle.scenario ++ "_"
              ++ demoJsonBundle.timestamp ++ ".json")
              (bundlePyVal demoJsonBundle))) :=
  ⟨⟨rfl, rfl, rfl⟩, save_docx_without_screenshots_falls_back_json envAllOk
    demoJsonManager demoJsonBundle rfl (by decide) rfl rfl⟩

theorem save_without_scenario_returns_none_witness :
    (EvidenceManager.mkManager "evidence").current_evidence = none ∧
    (returnValue
        (save_evidence envAllOk (EvidenceManager.mkManager "evidence") "auto").1
          = none ∧
      (save_evidence envAllOk (EvidenceManager.mkManager "evidence") "auto").2
        = []) :=
  ⟨rfl, save_without_scenario_returns_none envAllOk
    (EvidenceManager.mkManager "evidence") "auto" (Or.inl rfl)⟩

theorem save_failures_return_none_witness :
    (envAllFail.json_write_ok = false ∧ envAllFail.docx_available = false) ∧
    ((envAllFail.mkdir_ok = true →
      returnValue (save_evidence envAllFail demoJsonManager "auto").1 = none ∧
      raisesToCaller (save_evidence envAllFail demoJsonManager "auto").1
        = false) ∧
    (envAllFail.mkdir_ok = false →
      (save_evidence envAllFail demoJsonManager "auto").1
          = SaveOutcome.noBundle ∨
        (save_evidence envAllFail demoJsonManager "auto").1
          = SaveOutcome.mkdirRaised)) :=
  ⟨⟨rfl, rfl⟩, save_failures_return_none envAllFail demoJsonManager "auto"
    rfl (Or.inl rfl)⟩

theorem add_database_query_row_count_witness :
    demoJsonManager.current_evidence = some demoJsonBundle ∧
    ∃ m2, add_database_query "t" "SELECT 1" none (some "boom") demoJsonManager
        = .ok m2 ∧
      ∃ b2, m2.current_evidence = some b2 ∧
        b2.database_queries = demoJsonBundle.database_queries
          ++ [mkDbEvent "t" "SELECT 1" none (some "boom")] ∧
        (mkDbEvent "t" "SELECT 1" none (some "boom")).row_count
          = ((none : Option (List Row)).getD []).length ∧
        (mkDbEvent "t" "SELECT 1" none (some "boom")).error = some "boom" :=
  ⟨rfl, add_database_query_row_count "t" "SELECT 1" none (some "boom")
    demoJsonManager demoJsonBundle rfl⟩

/-- Two API recording calls, the trace of the C8 witness. -/
def demoOps : List Op :=
  [Op.addApi "t1" "GET" "http://a" none .pynone (some 200) none .pynone,
   Op.addApi "t2" "POST" "http://b" none .pynone (some 201) none .pynone]

/-- Manager state right after
`start_scenario("Feat", "Scen")` at timestamp 20240101_000000. -/
def demoStart : EvidenceManager :=
  start_scenario (EvidenceManager.mkManager "evidence")
    "Feat" "Scen" "20240101_000000"

/-- The bundle after running `demoOps` on `demoStart`. -/
def demoRunBundle : Bundle :=
  { feature := "Feat"
    scenario := "Scen"
    timestamp := "20240101_000000"
    api_requests := demoOps.filterMap (opApiEvent jlNone)
    database_queries := []
    ui_screenshots := [] }

/-- The manager after running `demoOps` on `demoStart`. -/
def demoAfter : EvidenceManager :=
  { evidence_dir := "evidence"
    screenshots_dir := demoStart.screenshots_dir
    current_evidence := some demoRunBundle }

theorem saved_json_roundtrip_witness :
    (runOps jlNone demoStart demoOps = .ok demoAfter ∧
      (save_evidence envAllOk demoAfter "auto").1
        = .savedJson "evidence/Feat/Feat_Scen_20240101_000000.json"
            (bundlePyVal demoRunBundle)) ∧
    (pyLookup "feature" (bundlePyVal demoRunBundle)
        = some (.pystr "Feat") ∧
      pyLookup "scenario" (bundlePyVal demoRunBundle)
        = some (.pystr "Scen") ∧
      pyLookup "api_requests" (bundlePyVal demoRunBundle)
        = some (.pylist
            ((demoOps.filterMap (opApiEvent jlNone)).map apiEventPyVal)) ∧
      pyLookup "database_queries" (bundlePyVal demoRunBundle)
        = some (.pylist ((demoOps.filterMap opDbEvent).map dbEventPyVal)) ∧
      pyLookup "ui_screenshots" (bundlePyVal demoRunBundle)
        = some (.pylist ((demoOps.filterMap opUiEvent).map uiEventPyVal)) ∧
      (demoOps.filterMap (opApiEvent jlNone)).length
        = (demoOps.filter Op.isApi).length ∧
      (demoOps.filterMap opDbEvent).length
        = (demoOps.filter Op.isDb).length ∧
      (demoOps.filterMap opUiEvent).length
        = (demoOps.filter Op.isUi).length) :=
  ⟨⟨rfl, rfl⟩, saved_json_roundtrip jlNone envAllOk
    (EvidenceManager.mkManager "evidence") "Feat" "Scen" "20240101_000000"
    demoOps "auto" "evidence/Feat/Feat_Scen_20240101_000000.json"
    (bundlePyVal demoRunBundle) demoAfter rfl rfl⟩

/-- The bundle `start_scenario` stores inside `demoManager`. -/
def demoBundle9 : Bundle :=
  { feature := "Login"
    scenario := "ValidLogin"
    timestamp := "20240101_120000"
    api_requests := []
    database_queries := []
    ui_screenshots := [] }

theorem bundle_extends_after_save_witness :
    (demoManager.current_evidence = some demoBundle9 ∧
      envAllOk.mkdir_ok = true) ∧
    ((∃ pth, returnValue (save_evidence envAllOk demoManager "json").1
        = some pth) ∧
      ∃ m2, add_api_request jlNone "t" "GET" "http://x" none .pynone none none
          .pynone demoManager = .ok m2 ∧
        ∃ b2, m2.current_evidence = some b2 ∧
          b2.api_requests = demoBundle9.api_requests
            ++ [mkApiEvent jlNone "t" "GET" "http://x" none .pynone none none
                  .pynone]) :=
  ⟨⟨rfl, rfl⟩, bundle_extends_after_save envAllOk demoManager demoBundle9
    jlNone "t" "GET" "http://x" .pynone .pynone rfl (by decide) rfl rfl⟩
